import Mathlib

/-!
Verification of the tutorBot payment core against its specification.

The definitions below are a shallow embedding of the Python sources:
* `bot/pricing.py` — the pricing resolver (`PRICING_CONFIG`, `get_price_by_class`);
* `bot/handlers/payments.py` — the gateway success poll (`check_payment`);
* `bot/handlers/payments_old.py` — the balance-backed payment
  (`select_balance_payment_month`);
* `bot/handlers/admin/admin.py` — the admin cash credit
  (`handle_admin_mark_payment`) and the free-amount balance credit
  (`handle_admin_text_input`).

Python `Decimal` values are embedded as the exact decimal type `Dec`
(an integer numerator with a base-ten scale), database tables as lists of
records, and each handler as a pure function from a database state and the
parsed update data to the new database state plus a structured reply whose
constructors carry exactly the values interpolated into the corresponding
message of the source.
-/

/-- Exact decimal numbers, embedding Python `decimal.Decimal` values:
the represented value is `num / 10 ^ scale`.  Arithmetic is exact, as in
`decimal` with default precision on the small operands used here. -/
structure Dec where
  num : Int
  scale : Nat
deriving DecidableEq

/-- Ten to the `n` as an integer, written recursively so that the kernel can
evaluate it. -/
def pow10 : Nat → Int
  | 0 => 1
  | n + 1 => 10 * pow10 n

def Dec.zero : Dec := ⟨0, 0⟩

def Dec.ofInt (n : Int) : Dec := ⟨n, 0⟩

/-- Exact addition: align both operands to the larger scale. -/
def Dec.add (a b : Dec) : Dec :=
  let s := max a.scale b.scale
  ⟨a.num * pow10 (s - a.scale) + b.num * pow10 (s - b.scale), s⟩

/-- Exact subtraction. -/
def Dec.sub (a b : Dec) : Dec :=
  let s := max a.scale b.scale
  ⟨a.num * pow10 (s - a.scale) - b.num * pow10 (s - b.scale), s⟩

/-- Value-level strict comparison (`<` on Python decimals). -/
def Dec.blt (a b : Dec) : Bool :=
  let s := max a.scale b.scale
  a.num * pow10 (s - a.scale) < b.num * pow10 (s - b.scale)

/-- Value-level comparison (`<=` on Python decimals). -/
def Dec.ble (a b : Dec) : Bool :=
  let s := max a.scale b.scale
  a.num * pow10 (s - a.scale) ≤ b.num * pow10 (s - b.scale)

/-- The rational value denoted by a `Dec`. -/
def Dec.toRat (a : Dec) : ℚ := (a.num : ℚ) / (10 : ℚ) ^ a.scale


theorem pow10_eq (n : Nat) : pow10 n = (10 : Int) ^ n := by
  induction n with
  | zero => simp [pow10]
  | succ k ih => rw [pow10, ih, pow_succ]; ring

@[norm_cast]
theorem pow10_cast (n : Nat) : ((pow10 n : Int) : ℚ) = (10 : ℚ) ^ n := by
  induction n with
  | zero => simp [pow10]
  | succ k ih => push_cast [pow10, pow_succ, ih]; ring

theorem Dec.toRat_mk (n : Int) (s : Nat) :
    Dec.toRat ⟨n, s⟩ = (n : ℚ) / (10 : ℚ) ^ s := rfl

theorem Dec.aligned_toRat (a : Dec) (s : Nat) (h : a.scale ≤ s) :
    (a.num : ℚ) * (10 : ℚ) ^ (s - a.scale) / (10 : ℚ) ^ s = a.toRat := by
  have hpow : (10 : ℚ) ^ (s - a.scale) * (10 : ℚ) ^ a.scale = (10 : ℚ) ^ s := by
    rw [← pow_add, Nat.sub_add_cancel h]
  have h10 : (10 : ℚ) ^ a.scale ≠ 0 := pow_ne_zero _ (by norm_num)
  have h10s : (10 : ℚ) ^ s ≠ 0 := pow_ne_zero _ (by norm_num)
  rw [Dec.toRat]
  field_simp
  rw [mul_assoc, hpow]

theorem Dec.toRat_add (a b : Dec) : (Dec.add a b).toRat = a.toRat + b.toRat := by
  have ha : a.scale ≤ max a.scale b.scale := le_max_left _ _
  have hb : b.scale ≤ max a.scale b.scale := le_max_right _ _
  simp only [Dec.add, Dec.toRat_mk]
  push_cast
  rw [add_div, Dec.aligned_toRat a _ ha, Dec.aligned_toRat b _ hb]

theorem Dec.toRat_sub (a b : Dec) : (Dec.sub a b).toRat = a.toRat - b.toRat := by
  have ha : a.scale ≤ max a.scale b.scale := le_max_left _ _
  have hb : b.scale ≤ max a.scale b.scale := le_max_right _ _
  simp only [Dec.sub, Dec.toRat_mk]
  push_cast
  rw [sub_div, Dec.aligned_toRat a _ ha, Dec.aligned_toRat b _ hb]

theorem Dec.blt_iff (a b : Dec) : Dec.blt a b = true ↔ a.toRat < b.toRat := by
  have ha : a.scale ≤ max a.scale b.scale := le_max_left _ _
  have hb : b.scale ≤ max a.scale b.scale := le_max_right _ _
  have hp : (0 : ℚ) < (10 : ℚ) ^ max a.scale b.scale := by positivity
  rw [← Dec.aligned_toRat a _ ha, ← Dec.aligned_toRat b _ hb,
    div_lt_div_iff_of_pos_right hp]
  simp only [Dec.blt, decide_eq_true_eq, pow10_eq]
  exact_mod_cast Iff.rfl

theorem Dec.ble_iff (a b : Dec) : Dec.ble a b = true ↔ a.toRat ≤ b.toRat := by
  have ha : a.scale ≤ max a.scale b.scale := le_max_left _ _
  have hb : b.scale ≤ max a.scale b.scale := le_max_right _ _
  have hp : (0 : ℚ) < (10 : ℚ) ^ max a.scale b.scale := by positivity
  rw [← Dec.aligned_toRat a _ ha, ← Dec.aligned_toRat b _ hb,
    div_le_div_iff_of_pos_right hp]
  simp only [Dec.ble, decide_eq_true_eq, pow10_eq]
  exact_mod_cast Iff.rfl

theorem Dec.toRat_ofInt (n : Int) : (Dec.ofInt n).toRat = (n : ℚ) := by
  simp [Dec.ofInt, Dec.toRat]

/-! ## String helpers mirroring the Python primitives used by the sources -/

/-- Python `str.lower` restricted to the character ranges occurring in this
code base: ASCII letters and the Cyrillic alphabet (`А`–`Я` and `Ё`). -/
def pyLowerChar (c : Char) : Char :=
  let n := c.toNat
  if 65 ≤ n && n ≤ 90 then Char.ofNat (n + 32)
  else if 1040 ≤ n && n ≤ 1071 then Char.ofNat (n + 32)
  else if n == 1025 then Char.ofNat 1105
  else c

def pyLowerStr (s : String) : String := String.mk (s.data.map pyLowerChar)

/-- Characters removed by Python `str.strip()` with no argument. -/
def pySpace (c : Char) : Bool :=
  c == ' ' || c == '\t' || c == '\n' || c == '\r' || c == '\x0b' || c == '\x0c'

def pyStripList (cs : List Char) : List Char :=
  ((cs.dropWhile pySpace).reverse.dropWhile pySpace).reverse

def pyStrip (s : String) : String := String.mk (pyStripList s.data)

/-- Test whether `pat` is an initial segment of `cs`. -/
def startsB : List Char → List Char → Bool
  | [], _ => true
  | _ :: _, [] => false
  | a :: as, b :: bs => a == b && startsB as bs

/-- Python substring containment (`needle in hay`). -/
def containsB (needle : List Char) : List Char → Bool
  | [] => needle.isEmpty
  | c :: t => startsB needle (c :: t) || containsB needle t

/-- Python `text.replace(',', '.')`: for a one-character pattern and
replacement this is a character-wise map. -/
def pyReplaceCommaDot (s : String) : String :=
  String.mk (s.data.map (fun c => if c == ',' then '.' else c))

/-- Split a character list at every occurrence of `sep`, as Python
`str.split(sep)` for a one-character separator. -/
def splitOnChar (sep : Char) : List Char → List (List Char)
  | [] => [[]]
  | c :: t =>
    if c == sep then [] :: splitOnChar sep t
    else
      match splitOnChar sep t with
      | [] => [[c]]
      | h :: r => (c :: h) :: r

def digitsVal (cs : List Char) : Nat :=
  cs.foldl (fun a c => a * 10 + (c.toNat - 48)) 0

/-! ## Embedding of `bot/pricing.py` -/

/-- One entry of `PRICING_CONFIG`: key, display data and keyword triggers. -/
structure PricePlan where
  key : String
  name : String
  price : Int
  description : String
  keywords : List String
deriving DecidableEq

/-- The dict returned by `get_price_by_class`. -/
structure PriceInfo where
  key : String
  name : String
  price : Int
  description : String
deriving DecidableEq

def oge_9 : PricePlan :=
  ⟨"oge_9", "💯ОГЭ(9 класс)", 5650, "2 часа / 1 раз в неделю",
    ["9", "oge", "огэ", "9 класс"]⟩

def ege_base : PricePlan :=
  ⟨"ege_base", "💯ЕГЭ База", 5650, "2 часа / 1 раз в неделю",
    ["егэ база", "ege base", "база"]⟩

def class_7 : PricePlan :=
  ⟨"class_7", "💯7 класс", 5650, "2 часа / 1 раз в неделю",
    ["7", "7 класс"]⟩

def class_8 : PricePlan :=
  ⟨"class_8", "💯8 класс (Алгебра + Геометрия)", 5650, "2 часа / 1 раз в неделю",
    ["8", "8 класс"]⟩

def ege_profile : PricePlan :=
  ⟨"ege_profile", "💯ЕГЭ Профиль 11 класс", 7900,
    "4 часа в неделю + дом.задания + возможно Zoom онлайн занятие 1 раз/неделю",
    ["11", "11 класс", "егэ профиль", "ege profile", "профиль"]⟩

def class_10 : PricePlan :=
  ⟨"class_10", "💯10 класс", 7000, "3 часа в неделю",
    ["10", "10 класс"]⟩

def class_5_6 : PricePlan :=
  ⟨"class_5_6", "💯5, 6 класс", 3670, "1 час / 1 раз в неделю",
    ["5", "6", "5 класс", "6 класс"]⟩

def university_course_1 : PricePlan :=
  ⟨"university_course_1", "🎓1 курс ВУЗа", 1, "Студент 1 курса ВУЗа",
    ["1 курс", "course_1", "1"]⟩

def university_course_2 : PricePlan :=
  ⟨"university_course_2", "🎓2 курс ВУЗа", 1, "Студент 2 курса ВУЗа",
    ["2 курс", "course_2", "2"]⟩

def university_course_3 : PricePlan :=
  ⟨"university_course_3", "🎓3 курс ВУЗа", 1, "Студент 3 курса ВУЗа",
    ["3 курс", "course_3", "3"]⟩

def university_course_4 : PricePlan :=
  ⟨"university_course_4", "🎓4 курс ВУЗа", 1, "Студент 4 курса ВУЗа",
    ["4 курс", "course_4", "4"]⟩

def university_course_5 : PricePlan :=
  ⟨"university_course_5", "🎓5 курс ВУЗа", 1, "Студент 5 курса ВУЗа",
    ["5 курс", "course_5", "5"]⟩

def university_course_6 : PricePlan :=
  ⟨"university_course_6", "🎓6 курс ВУЗа", 1, "Студент 6 курса ВУЗа",
    ["6 курс", "course_6", "6"]⟩

/-- The ordered pricing table; a Python 3.7+ dict iterates in insertion
order, so the list keeps the order in which the source writes the keys. -/
def PRICING_CONFIG : List PricePlan :=
  [oge_9, ege_base, class_7, class_8, ege_profile, class_10, class_5_6,
   university_course_1, university_course_2, university_course_3,
   university_course_4, university_course_5, university_course_6]

/-- The inner `for keyword in price_data['keywords']: if keyword in
class_info_lower` loop of `get_price_by_class`. -/
def planMatches (p : PricePlan) (classInfoLower : String) : Bool :=
  p.keywords.any (fun kw => containsB kw.data classInfoLower.data)

/-- Embedding of `get_price_by_class` from `bot/pricing.py`: empty input is
falsy and yields `None`; otherwise the label is lower-cased and stripped and
the table is scanned in order, the first plan with a matching keyword
winning. -/
def get_price_by_class (class_info : String) : Option PriceInfo :=
  if class_info == "" then none
  else
    let cl := pyStrip (pyLowerStr class_info)
    (PRICING_CONFIG.find? (fun p => planMatches p cl)).map
      (fun p => ⟨p.key, p.name, p.price, p.description⟩)

example : get_price_by_class "10 класс" =
    some ⟨"class_10", "💯10 класс", 7000, "3 часа в неделю"⟩ := by decide

example : get_price_by_class "9 класс" =
    some ⟨"oge_9", "💯ОГЭ(9 класс)", 5650, "2 часа / 1 раз в неделю"⟩ := by decide

example : get_price_by_class "1 класс" =
    some ⟨"university_course_1", "🎓1 курс ВУЗа", 1, "Студент 1 курса ВУЗа"⟩ := by decide

example : get_price_by_class "" = none := by decide

/-! ## Embedding of Python `decimal.Decimal(str)` construction

`handle_admin_text_input` runs `Decimal(str(msg.text.replace(',', '.')))`.
The decimal numeric-string grammar is: optional surrounding whitespace, an
optional sign, digits with at most one decimal point (at least one digit in
the mantissa) and an optional `e`/`E` exponent with its own optional sign.
The special `Infinity`/`NaN` forms are not modelled: on those inputs the
handler mutates nothing either way, which is the only behaviour the claims
touch.  A string outside the grammar makes the constructor raise
`decimal.InvalidOperation`, embedded here as `none`. -/

/-- Build the parsed decimal value from sign, mantissa digits, number of
fraction digits and exponent. -/
def Dec.ofParts (neg : Bool) (digits fracLen : Nat) (ex : Int) : Dec :=
  let mant : Int := if neg then -(digits : Int) else (digits : Int)
  let e : Int := ex - (fracLen : Int)
  if 0 ≤ e then ⟨mant * pow10 e.toNat, 0⟩ else ⟨mant, (-e).toNat⟩

/-- Mantissa parse: digits value and number of fraction digits. -/
def parseMantissa (cs : List Char) : Option (Nat × Nat) :=
  match splitOnChar '.' cs with
  | [i] =>
    if !i.isEmpty && i.all Char.isDigit then some (digitsVal i, 0) else none
  | [i, f] =>
    if (!i.isEmpty || !f.isEmpty) && i.all Char.isDigit && f.all Char.isDigit then
      some (digitsVal (i ++ f), f.length)
    else none
  | _ => none

def parseSignedDigits (cs : List Char) : Option Int :=
  let (neg, r) :=
    match cs with
    | '-' :: t => (true, t)
    | '+' :: t => (false, t)
    | t => (false, t)
  if !r.isEmpty && r.all Char.isDigit then
    some (if neg then -(digitsVal r : Int) else (digitsVal r : Int))
  else none

/-- Embedding of the `Decimal` constructor on a string argument. -/
def pyDecimal (s : String) : Option Dec :=
  let t := pyStripList (pyLowerStr s).data
  let (neg, r) :=
    match t with
    | '-' :: u => (true, u)
    | '+' :: u => (false, u)
    | u => (false, u)
  match splitOnChar 'e' r with
  | [m] => (parseMantissa m).map (fun p => Dec.ofParts neg p.1 p.2 0)
  | [m, ex] =>
    match parseMantissa m, parseSignedDigits ex with
    | some p, some e => some (Dec.ofParts neg p.1 p.2 e)
    | _, _ => none
  | _ => none

example : pyDecimal "1500.50" = some ⟨150050, 2⟩ := by decide
example : pyDecimal "-5" = some ⟨-5, 0⟩ := by decide
example : pyDecimal "abc" = none := by decide
example : pyDecimal "1000" = some ⟨1000, 0⟩ := by decide
example : pyDecimal " 2.5e2 " = some ⟨250, 0⟩ := by decide
example : pyDecimal "" = none := by decide
example : pyDecimal "." = none := by decide
example : pyReplaceCommaDot "1500,50" = "1500.50" := by decide

/-! ## Data model

Embeddings of the Django models consumed by the handlers.  The model file
`bot/models.py` itself is not among the sources; each record mirrors the
fields the handlers read and write, per the spec's §3 data model. -/

/-- A row of the Student Account table (`User`). -/
structure UserRec where
  telegram_id : String
  full_name : String
  course_or_class : String
  class_number : String
  is_registered : Bool
  is_admin : Bool
  balance : Dec
deriving DecidableEq

/-- A row of the Payment Intent table (`Payment`). -/
structure PaymentRec where
  user_id : String
  yookassa_payment_id : String
  amount : Dec
  status : String
  description : String
  payment_month : Nat
  payment_year : Nat
  pricing_plan : String
  payment_method : String
deriving DecidableEq

/-- A row of the Payment History table (`PaymentHistory`). -/
structure HistoryRec where
  user_id : String
  payment : Option String
  month : Nat
  year : Nat
  amount_paid : Dec
  pricing_plan : String
  payment_type : String
  status : String
deriving DecidableEq

/-- A row of the `AdminState` table: the per-admin wait state, whose `data`
dict stores the selected student id. -/
structure AdminStateRec where
  admin_id : String
  state : String
  student_id : String
deriving DecidableEq

/-- The persisted state the handlers read and mutate. -/
structure DB where
  users : List UserRec
  payments : List PaymentRec
  history : List HistoryRec
  admin_states : List AdminStateRec
deriving DecidableEq

def findUser (db : DB) (uid : String) : Option UserRec :=
  db.users.find? (fun u => u.telegram_id == uid)

/-- Embedding of `user.save()` after mutating a fetched row: replace the row with the
matching id. -/
def updateUser (db : DB) (u : UserRec) : DB :=
  { db with users := db.users.map (fun v => if v.telegram_id == u.telegram_id then u else v) }

def findPayment (db : DB) (pid : String) : Option PaymentRec :=
  db.payments.find? (fun p => p.yookassa_payment_id == pid)

def updatePayment (db : DB) (p : PaymentRec) : DB :=
  { db with payments := db.payments.map (fun q =>
      if q.yookassa_payment_id == p.yookassa_payment_id then p else q) }

def findAdminState (db : DB) (aid st : String) : Option AdminStateRec :=
  db.admin_states.find? (fun a => a.admin_id == aid && a.state == st)

/-- Embedding of `admin_state.delete()` for the row fetched by admin id and state name. -/
def removeAdminState (db : DB) (aid st : String) : DB :=
  { db with admin_states :=
      db.admin_states.filter (fun a => !(a.admin_id == aid && a.state == st)) }

/-- Modelled from the spec: `PaymentHistory.is_month_paid` is defined in
`bot/models.py`, which is not among the sources.  Per §3 the History ledger
is "the source of truth for 'has this month been paid'", a month being paid
exactly when a History Record with status `completed` exists for that
(student, month, year). -/
def is_month_paid (db : DB) (uid : String) (month year : Nat) : Bool :=
  db.history.any (fun r =>
    r.user_id == uid && r.month == month && r.year == year && r.status == "completed")

/-- Modelled from the spec: the `PaymentHistory` model defaults applied when
`payments.py` creates a gateway record without explicit `payment_type` and
`status` kwargs; §3 fixes the type vocabulary to `card`/`balance`/`cash`
with `card` the gateway type, and status "always `completed` once written". -/
def historyDefaultType : String := "card"

/-- Modelled from the spec: default `status` of a created History Record,
"always `completed` once written" (§3). -/
def historyDefaultStatus : String := "completed"

/-! ## Handler replies

Each constructor stands for one outgoing message of the corresponding
handler; its fields are exactly the values the source interpolates into
that message. -/

inductive BotReply where
  /-- Reply `answer_callback_query "Ошибка обработки"` (the `ValueError` /
  `User.DoesNotExist` handler of the payment callbacks). -/
  | processingError : BotReply
  /-- Reply "Месяц … уже оплачен!" naming the month and year. -/
  | alreadyPaid (month year : Nat) : BotReply
  /-- Reply `answer_callback_query "Ошибка определения цены"`. -/
  | priceError : BotReply
  /-- Reply "Недостаточно средств на балансе! Требуется: … Доступно: …",
  carrying the required and the available amount. -/
  | insufficientFunds (required available : Dec) : BotReply
  /-- the `edit_message_text` success report of the balance payment,
  carrying month, year, amount and the remaining balance. -/
  | balancePaySuccess (month year : Nat) (amount remaining : Dec) : BotReply
  /-- Reply `answer_callback_query "Ошибка получения информации о платеже"`. -/
  | gatewayInfoError : BotReply
  /-- Reply `answer_callback_query "Платеж не найден в базе данных"`. -/
  | paymentNotFoundLocally : BotReply
  /-- the `edit_message_text` confirmation of a succeeded gateway payment. -/
  | paymentConfirmed (amount : Dec) (month year : Nat) : BotReply
  /-- Reply `answer_callback_query "Платеж еще не завершен. Попробуйте позже."`. -/
  | paymentPending : BotReply
  /-- Reply `answer_callback_query "Платеж отменен."`. -/
  | paymentCanceled : BotReply
  /-- Reply "Статус платежа: …", carrying
  the raw gateway status verbatim. -/
  | rawStatus (status : String) : BotReply
  /-- Reply `answer_callback_query "⛔ Пользователь не найден"` from the admin
  permission wrapper. -/
  | adminUserNotFound : BotReply
  /-- Reply `"⛔ У вас нет администраторского доступа"`. -/
  | noAdminAccess : BotReply
  /-- Reply `answer_callback_query "❌ Неверный ID ученика"`. -/
  | invalidStudentId : BotReply
  /-- Reply `answer_callback_query "❌ Ученик не найден"`. -/
  | studentNotFound : BotReply
  /-- the `edit_message_text` report of `handle_admin_mark_payment`,
  carrying plan label, month, year, price and the student's new balance. -/
  | markPaymentSuccess (plan : String) (month year : Nat) (price newBalance : Dec) : BotReply
  /-- Reply `"❌ Сумма должна быть больше 0. Попробуйте еще раз:"`. -/
  | amountNotPositive : BotReply
  /-- Reply `"❌ Произошла ошибка. Попробуйте еще раз."` — the outer
  `except Exception` of `handle_admin_text_input`; reached for non-numeric
  amounts because `decimal.InvalidOperation` is not a `ValueError` and so
  escapes the inner `except ValueError` clause. -/
  | genericError : BotReply
  /-- Reply `"❌ Ученик не найден. Операция отменена."`. -/
  | studentGoneCanceled : BotReply
  /-- Reply `"✅ Сумма успешно зачислена на баланс!"` with the amount and the new
  balance. -/
  | balanceCredited (amount newBalance : Dec) : BotReply
  /-- no wait state: the admin text message is silently ignored. -/
  | ignored : BotReply
deriving DecidableEq

/-- The gateway response consumed by the success poll: the fields of the
YooKassa payment object read by `check_payment`. -/
structure GatewayInfo where
  status : String
  payment_method : String
deriving DecidableEq

/-! ## Embedding of `check_payment` (`bot/handlers/payments.py`, lines 225–304)

The callback data `check_payment_{payment_id}_{month}_{year}` arrives here
already split into its components; `gateway` is the result of
`yookassa_client.get_payment(payment_id)`, `none` standing for a falsy
response. -/

def check_payment (db : DB) (from_user : String) (payment_id : String)
    (month year : Nat) (gateway : Option GatewayInfo) : DB × BotReply :=
  match findUser db from_user with
  | none => (db, .processingError)
  | some user =>
    if is_month_paid db user.telegram_id month year then
      (db, .alreadyPaid month year)
    else
      match gateway with
      | none => (db, .gatewayInfoError)
      | some info =>
        if info.status == "succeeded" then
          match findPayment db payment_id with
          | none => (db, .paymentNotFoundLocally)
          | some payment =>
            let payment2 : PaymentRec :=
              { payment with status := "succeeded", payment_method := info.payment_method }
            let db2 := updatePayment db payment2
            let hrec : HistoryRec :=
              { user_id := user.telegram_id, payment := some payment_id,
                month := month, year := year, amount_paid := payment.amount,
                pricing_plan := payment.pricing_plan,
                payment_type := historyDefaultType,
                status := historyDefaultStatus }
            ({ db2 with history := db2.history ++ [hrec] },
             .paymentConfirmed payment.amount month year)
        else if info.status == "pending" then (db, .paymentPending)
        else if info.status == "canceled" then (db, .paymentCanceled)
        else (db, .rawStatus info.status)

/-! ## Embedding of `select_balance_payment_month`
(`bot/handlers/payments_old.py`, lines 257–330) -/

def select_balance_payment_month (db : DB) (from_user : String)
    (month year : Nat) : DB × BotReply :=
  match findUser db from_user with
  | none => (db, .processingError)
  | some user =>
    if is_month_paid db user.telegram_id month year then
      (db, .alreadyPaid month year)
    else
      match get_price_by_class user.course_or_class with
      | none => (db, .priceError)
      | some pi =>
        let amount := Dec.ofInt pi.price
        if Dec.blt user.balance amount then
          (db, .insufficientFunds amount user.balance)
        else
          let user2 : UserRec := { user with balance := Dec.sub user.balance amount }
          let db2 := updateUser db user2
          let hrec : HistoryRec :=
            { user_id := user.telegram_id, payment := none,
              month := month, year := year, amount_paid := amount,
              pricing_plan := pi.key, payment_type := "balance",
              status := "completed" }
          ({ db2 with history := db2.history ++ [hrec] },
           .balancePaySuccess month year amount user2.balance)

/-! ## Embedding of `handle_admin_mark_payment`
(`bot/handlers/admin/admin.py`, lines 402–484) -/

/-- The price/plan-label selection of `handle_admin_mark_payment`: the
resolved plan's price and display name, or the fixed 5000 / generic label
fallback when the resolver finds nothing. -/
def adminLessonPrice (class_number : String) : Dec × String :=
  match get_price_by_class class_number with
  | some pi => (Dec.ofInt pi.price, pi.name)
  | none => (Dec.ofInt 5000, "стандартный тариф")

def handle_admin_mark_payment (db : DB) (admin_id student_id : String)
    (month year : Nat) : DB × BotReply :=
  match findUser db admin_id with
  | none => (db, .adminUserNotFound)
  | some admin =>
    if !admin.is_admin then (db, .noAdminAccess)
    else if student_id == "" || student_id == "student" || student_id == "admin"
        || student_id == "user" then
      (db, .invalidStudentId)
    else
      match findUser db student_id with
      | none => (db, .studentNotFound)
      | some student =>
        let pr := adminLessonPrice student.class_number
        let student2 : UserRec := { student with balance := Dec.add student.balance pr.1 }
        let db2 := updateUser db student2
        let hrec : HistoryRec :=
          { user_id := student.telegram_id, payment := none,
            month := month, year := year, amount_paid := pr.1,
            pricing_plan := pr.2, payment_type := "cash",
            status := "completed" }
        ({ db2 with history := db2.history ++ [hrec] },
         .markPaymentSuccess pr.2 month year pr.1 student2.balance)

/-! ## Embedding of `handle_admin_text_input`
(`bot/handlers/admin/admin.py`, lines 315–388)

The `admin_permission` message decorator fetches the calling user with no
`DoesNotExist` handler; a missing row or a non-admin caller falls through
without touching the wait state. -/

def handle_admin_text_input (db : DB) (admin_id : String) (text : String) :
    DB × BotReply :=
  match findUser db admin_id with
  | none => (db, .genericError)
  | some admin =>
    if !admin.is_admin then (db, .noAdminAccess)
    else
      match findAdminState db admin_id "waiting_balance_amount" with
      | none => (db, .ignored)
      | some st =>
        match pyDecimal (pyReplaceCommaDot text) with
        | none => (db, .genericError)
        | some amount =>
          if Dec.ble amount Dec.zero then (db, .amountNotPositive)
          else
            match findUser db st.student_id with
            | none =>
              (removeAdminState db admin_id "waiting_balance_amount", .studentGoneCanceled)
            | some student =>
              let student2 : UserRec :=
                { student with balance := Dec.add student.balance amount }
              let db2 := removeAdminState (updateUser db student2)
                admin_id "waiting_balance_amount"
              (db2, .balanceCredited amount student2.balance)

/-! ## The write sequence of the paired balance/history mutations

`select_balance_payment_month` and `handle_admin_mark_payment` each perform
two separate persistence calls after their guards: `user.save()` and then
`PaymentHistory.objects.create(...)`, with no enclosing transaction.  To
reason about a failure between the two calls, the write sequence is made
explicit as a list of state transformers and the handlers are proved equal
to running the full list. -/

def dbSaveUser (u : UserRec) : DB → DB := fun db => updateUser db u

def dbCreateHistory (r : HistoryRec) : DB → DB :=
  fun db => { db with history := db.history ++ [r] }

def runWrites (ops : List (DB → DB)) (db : DB) : DB :=
  ops.foldl (fun d f => f d) db

/-- The two persistence calls of the balance-payment success path, in
source order. -/
def balancePayWrites (user2 : UserRec) (hrec : HistoryRec) : List (DB → DB) :=
  [dbSaveUser user2, dbCreateHistory hrec]

def balanceOf (db : DB) (uid : String) : Option Dec :=
  (findUser db uid).map (fun u => u.balance)

/-! ## Concrete states used as witnesses -/

def studentIvan : UserRec :=
  ⟨"s1", "Иван Иванов", "9 класс", "9 класс", true, false, ⟨10000, 0⟩⟩

def adminAnna : UserRec :=
  ⟨"a1", "Анна Петрова", "", "", true, true, ⟨0, 0⟩⟩

def pendingIntent : PaymentRec :=
  ⟨"s1", "p1", ⟨5650, 0⟩, "pending", "Оплата занятий за Март 2025", 3, 2025,
    "oge_9", ""⟩

/-- A state with a registered student, an admin and one pending gateway
intent, and nothing yet paid. -/
def freshDB : DB := ⟨[adminAnna, studentIvan], [pendingIntent], [], []⟩

/-- A completed History Record for (s1, January 2025). -/
def januaryPaidRec : HistoryRec :=
  ⟨"s1", none, 1, 2025, ⟨5650, 0⟩, "oge_9", "cash", "completed"⟩

/-- State `freshDB` after January 2025 has been paid. -/
def paidDB : DB := ⟨[adminAnna, studentIvan], [pendingIntent], [januaryPaidRec], []⟩

def studentIvanSmall : UserRec := { studentIvan with balance := ⟨1000, 0⟩ }

def waitState : AdminStateRec := ⟨"a1", "waiting_balance_amount", "s1"⟩

/-- A state in which admin a1 is being prompted for a free amount for s1. -/
def waitDB : DB := ⟨[adminAnna, studentIvanSmall], [], [], [waitState]⟩

/-! ## Facts about the pricing table -/

theorem get_price_mem (s : String) (pi : PriceInfo)
    (h : get_price_by_class s = some pi) :
    ∃ p ∈ PRICING_CONFIG, pi = ⟨p.key, p.name, p.price, p.description⟩ := by
  unfold get_price_by_class at h
  split at h
  · exact absurd h (by simp)
  · cases hf : PRICING_CONFIG.find?
        (fun p => planMatches p (pyStrip (pyLowerStr s))) with
    | none => simp [hf] at h
    | some p =>
      simp only [hf, Option.map_some', Option.some.injEq] at h
      exact ⟨p, List.mem_of_find?_eq_some hf, h.symm⟩

theorem config_price_pos : ∀ p ∈ PRICING_CONFIG, 0 < p.price := by decide

theorem get_price_pos (s : String) (pi : PriceInfo)
    (h : get_price_by_class s = some pi) : 0 < pi.price := by
  obtain ⟨p, hp, rfl⟩ := get_price_mem s pi h
  exact config_price_pos p hp

/-- C7, C10: every claim-relevant fact is about the price/plan pair the
admin handler selects, so its positivity is a shared lemma. -/
theorem adminLessonPrice_pos (c : String) : 0 < (adminLessonPrice c).1.toRat := by
  unfold adminLessonPrice
  cases h : get_price_by_class c with
  | none => rw [Dec.toRat_ofInt]; norm_num
  | some pi =>
    have := get_price_pos c pi h
    rw [Dec.toRat_ofInt]
    exact_mod_cast this

/-- C7: the resolver lower-cases and trims the label, scans the table in its
fixed order and returns the first plan with a keyword-substring match;
`"10 класс"` resolves to `class_10` (price 7000) although the later plan
`university_course_1` also matches its bare `"1"` keyword; an empty or
unmatched label returns `none`. -/
theorem Claims.C7_resolver_first_match :
    get_price_by_class "10 класс" =
        some ⟨"class_10", "💯10 класс", 7000, "3 часа в неделю"⟩
      ∧ planMatches university_course_1 (pyStrip (pyLowerStr "10 класс")) = true
      ∧ get_price_by_class " 10 КЛАСС " =
        some ⟨"class_10", "💯10 класс", 7000, "3 часа в неделю"⟩
      ∧ get_price_by_class "" = none
      ∧ get_price_by_class "xyz" = none := by
  decide

/-- C10: a label whose lower-cased, trimmed form contains the substring
`"1"` but matches no keyword of any earlier plan falls through to the
`university_course_1` plan and is priced at 1. -/
theorem Claims.C10_bare_one_prices_at_one (label : String)
    (h1 : containsB "1".data (pyStrip (pyLowerStr label)).data = true)
    (h2 : planMatches oge_9 (pyStrip (pyLowerStr label)) = false)
    (h3 : planMatches ege_base (pyStrip (pyLowerStr label)) = false)
    (h4 : planMatches class_7 (pyStrip (pyLowerStr label)) = false)
    (h5 : planMatches class_8 (pyStrip (pyLowerStr label)) = false)
    (h6 : planMatches ege_profile (pyStrip (pyLowerStr label)) = false)
    (h7 : planMatches class_10 (pyStrip (pyLowerStr label)) = false)
    (h8 : planMatches class_5_6 (pyStrip (pyLowerStr label)) = false) :
    get_price_by_class label =
      some ⟨"university_course_1", "🎓1 курс ВУЗа", 1, "Студент 1 курса ВУЗа"⟩ := by
  have hne : (label == "") = false := by
    cases hb : label == "" with
    | true =>
      have hl : label = "" := eq_of_beq hb
      subst hl
      exact absurd h1 (by decide)
    | false => rfl
  have hm : planMatches university_course_1 (pyStrip (pyLowerStr label)) = true := by
    simp only [planMatches, university_course_1, List.any_cons, List.any_nil,
      Bool.or_false] at h2 ⊢
    rw [h1]
    simp
  unfold get_price_by_class
  simp only [hne, Bool.false_eq_true, if_false]
  simp only [PRICING_CONFIG, List.find?, h2, h3, h4, h5, h6, h7, h8, hm]
  rfl

/-- Witness for C10 at the concrete label `"1 класс"`: the school label for
first grade is silently priced as the 1-ruble first-year university plan. -/
theorem Claims.C10_witness :
    get_price_by_class "1 класс" =
      some ⟨"university_course_1", "🎓1 курс ВУЗа", 1, "Студент 1 курса ВУЗа"⟩ :=
  Claims.C10_bare_one_prices_at_one "1 класс" (by decide) (by decide) (by decide)
    (by decide) (by decide) (by decide) (by decide) (by decide)

/-- C5: the admin cash credit writes one completed `cash` History Record for
the chosen month/year and credits the student's balance by the resolved
plan's price, which is strictly positive; an unresolvable class falls back
to the fixed 5000 / generic-label pair instead of rejecting; a class
resolving as `"9 класс"` yields price 5650 under the ОГЭ plan. -/
theorem Claims.C5_admin_cash_credit (db : DB) (aid sid : String) (m y : Nat)
    (admin student : UserRec)
    (hadmin : findUser db aid = some admin)
    (hisadmin : admin.is_admin = true)
    (hs1 : (sid == "") = false) (hs2 : (sid == "student") = false)
    (hs3 : (sid == "admin") = false) (hs4 : (sid == "user") = false)
    (hstud : findUser db sid = some student) :
    (handle_admin_mark_payment db aid sid m y).1.history
        = db.history ++ [⟨student.telegram_id, none, m, y,
            (adminLessonPrice student.class_number).1,
            (adminLessonPrice student.class_number).2, "cash", "completed"⟩]
      ∧ (handle_admin_mark_payment db aid sid m y).1.users
        = (updateUser db { student with
            balance := Dec.add student.balance (adminLessonPrice student.class_number).1 }).users
      ∧ (handle_admin_mark_payment db aid sid m y).2
        = .markPaymentSuccess (adminLessonPrice student.class_number).2 m y
            (adminLessonPrice student.class_number).1
            (Dec.add student.balance (adminLessonPrice student.class_number).1)
      ∧ (Dec.add student.balance (adminLessonPrice student.class_number).1).toRat
        = student.balance.toRat + (adminLessonPrice student.class_number).1.toRat
      ∧ 0 < (adminLessonPrice student.class_number).1.toRat
      ∧ (get_price_by_class student.class_number = none →
          adminLessonPrice student.class_number = (Dec.ofInt 5000, "стандартный тариф"))
      ∧ adminLessonPrice "9 класс" = (Dec.ofInt 5650, "💯ОГЭ(9 класс)") := by
  have hrun : handle_admin_mark_payment db aid sid m y =
      (⟨(updateUser db { student with
            balance := Dec.add student.balance (adminLessonPrice student.class_number).1 }).users,
        db.payments, db.history ++ [⟨student.telegram_id, none, m, y,
            (adminLessonPrice student.class_number).1,
            (adminLessonPrice student.class_number).2, "cash", "completed"⟩],
        db.admin_states⟩,
       .markPaymentSuccess (adminLessonPrice student.class_number).2 m y
         (adminLessonPrice student.class_number).1
         (Dec.add student.balance (adminLessonPrice student.class_number).1)) := by
    unfold handle_admin_mark_payment
    rw [hadmin]
    simp only [hisadmin, Bool.not_true, Bool.false_eq_true, if_false, hs1, hs2,
      hs3, hs4, Bool.or_self, hstud, updateUser]
  refine ⟨by rw [hrun], by rw [hrun], by rw [hrun], Dec.toRat_add _ _,
    adminLessonPrice_pos _, ?_, by decide⟩
  intro hnone
  unfold adminLessonPrice
  rw [hnone]

/-- Witness for C5: the admin marks February 2025 as cash-paid for a
student of class `"9 класс"` with balance 10000; one cash record with
amount 5650 appears and the balance becomes 15650. -/
theorem Claims.C5_witness :
    (handle_admin_mark_payment freshDB "a1" "s1" 2 2025).1.history
        = freshDB.history ++ [⟨"s1", none, 2, 2025, ⟨5650, 0⟩,
            "💯ОГЭ(9 класс)", "cash", "completed"⟩]
      ∧ balanceOf (handle_admin_mark_payment freshDB "a1" "s1" 2 2025).1 "s1"
        = some ⟨15650, 0⟩ := by
  have h := Claims.C5_admin_cash_credit freshDB "a1" "s1" 2 2025 adminAnna
    studentIvan (by decide) (by decide) (by decide) (by decide) (by decide)
    (by decide) (by decide)
  refine ⟨?_, ?_⟩
  · have := h.1
    simpa using this
  · have := h.2.1
    simp only [balanceOf, this]
    decide

/-- C3: for a not-yet-paid month with resolved price P, the balance payment
with balance B either (B ≥ P) debits the balance to B − P and appends
exactly one completed `balance` History Record of amount P, or (B < P)
rejects with the insufficient-funds message carrying the required and the
available amount, changing nothing; the branch condition agrees with the
value-level comparison of B and P. -/
theorem Claims.C3_balance_payment (db : DB) (uid : String) (m y : Nat)
    (user : UserRec) (pi : PriceInfo)
    (huser : findUser db uid = some user)
    (hguard : is_month_paid db user.telegram_id m y = false)
    (hprice : get_price_by_class user.course_or_class = some pi) :
    (Dec.blt user.balance (Dec.ofInt pi.price) = false →
        select_balance_payment_month db uid m y =
          ({ updateUser db { user with
               balance := Dec.sub user.balance (Dec.ofInt pi.price) } with
             history := db.history ++ [⟨user.telegram_id, none, m, y,
               Dec.ofInt pi.price, pi.key, "balance", "completed"⟩] },
           .balancePaySuccess m y (Dec.ofInt pi.price)
             (Dec.sub user.balance (Dec.ofInt pi.price)))
        ∧ (Dec.sub user.balance (Dec.ofInt pi.price)).toRat
          = user.balance.toRat - (pi.price : ℚ))
      ∧ (Dec.blt user.balance (Dec.ofInt pi.price) = true →
        select_balance_payment_month db uid m y =
          (db, .insufficientFunds (Dec.ofInt pi.price) user.balance))
      ∧ (Dec.blt user.balance (Dec.ofInt pi.price) = true ↔
          user.balance.toRat < (pi.price : ℚ)) := by
  have hiff : Dec.blt user.balance (Dec.ofInt pi.price) = true ↔
      user.balance.toRat < (pi.price : ℚ) := by
    rw [Dec.blt_iff, Dec.toRat_ofInt]
  refine ⟨?_, ?_, hiff⟩
  · intro hb
    constructor
    · unfold select_balance_payment_month
      rw [huser]
      simp only [hguard, Bool.false_eq_true, if_false, hprice, hb, updateUser]
    · rw [Dec.toRat_sub, Dec.toRat_ofInt]
  · intro hb
    unfold select_balance_payment_month
    rw [huser]
    simp only [hguard, Bool.false_eq_true, if_false, hprice, hb, if_true]

/-- Witness for C3, both branches: with balance 10000 and price 5650 the
March 2025 balance payment leaves balance 4350 and one `balance` record;
with balance 1000 it is rejected with required 5650 / available 1000 and
nothing changes. -/
theorem Claims.C3_witness :
    (select_balance_payment_month freshDB "s1" 3 2025).1.history
        = [⟨"s1", none, 3, 2025, ⟨5650, 0⟩, "oge_9", "balance", "completed"⟩]
      ∧ balanceOf (select_balance_payment_month freshDB "s1" 3 2025).1 "s1"
        = some ⟨4350, 0⟩
      ∧ select_balance_payment_month waitDB "s1" 3 2025
        = (waitDB, .insufficientFunds ⟨5650, 0⟩ ⟨1000, 0⟩) := by
  have h1 := Claims.C3_balance_payment freshDB "s1" 3 2025 studentIvan
    ⟨"oge_9", "💯ОГЭ(9 класс)", 5650, "2 часа / 1 раз в неделю"⟩
    (by decide) (by decide) (by decide)
  have h2 := Claims.C3_balance_payment waitDB "s1" 3 2025 studentIvanSmall
    ⟨"oge_9", "💯ОГЭ(9 класс)", 5650, "2 часа / 1 раз в неделю"⟩
    (by decide) (by decide) (by decide)
  have e1 := (h1.1 (by decide)).1
  have e2 := h2.2.1 (by decide)
  refine ⟨?_, ?_, ?_⟩
  · rw [e1]; decide
  · rw [balanceOf, e1]; decide
  · rw [e2]; decide

/-- C8: when the success poll sees any status other than `succeeded`, the
state is returned untouched; `pending` and `canceled` produce their fixed
reports and any other status is passed through verbatim in the reply. -/
theorem Claims.C8_non_succeeded_frame (db : DB) (uid pid : String) (m y : Nat)
    (user : UserRec) (status pm : String)
    (huser : findUser db uid = some user)
    (hguard : is_month_paid db user.telegram_id m y = false)
    (hst : (status == "succeeded") = false) :
    check_payment db uid pid m y (some ⟨status, pm⟩) =
      (db, if status == "pending" then .paymentPending
        else if status == "canceled" then .paymentCanceled
        else .rawStatus status) := by
  unfold check_payment
  rw [huser]
  simp only [hguard, Bool.false_eq_true, if_false, hst]
  by_cases h1 : (status == "pending") = true
  · simp [h1]
  · by_cases h2 : (status == "canceled") = true
    · simp [h1, h2]
    · simp [h1, h2]

/-- Witness for C8: an unrecognized gateway status `"weird_status"` leaves
`freshDB` unchanged and is echoed verbatim. -/
theorem Claims.C8_witness :
    check_payment freshDB "s1" "p1" 3 2025 (some ⟨"weird_status", ""⟩) =
      (freshDB, .rawStatus "weird_status") := by
  have h := Claims.C8_non_succeeded_frame freshDB "s1" "p1" 3 2025 studentIvan
    "weird_status" "" (by decide) (by decide) (by decide)
  rw [h]
  decide

/-- C9: the success poll takes month and year from the callback data, never
from the stored Payment Intent: even when they differ from the intent's
`payment_month`/`payment_year`, the new History Record carries the
callback's month and year. -/
theorem Claims.C9_callback_month_wins (db : DB) (uid pid : String) (m y : Nat)
    (user : UserRec) (p : PaymentRec) (pm : String)
    (huser : findUser db uid = some user)
    (hguard : is_month_paid db user.telegram_id m y = false)
    (hpay : findPayment db pid = some p)
    (hdiff : m ≠ p.payment_month ∨ y ≠ p.payment_year) :
    (check_payment db uid pid m y (some ⟨"succeeded", pm⟩)).1.history
      = db.history ++ [⟨user.telegram_id, some pid, m, y, p.amount,
          p.pricing_plan, "card", "completed"⟩] := by
  unfold check_payment
  rw [huser]
  simp only [hguard, Bool.false_eq_true, if_false, hpay, if_true,
    historyDefaultType, historyDefaultStatus, updatePayment]
  rfl

/-- Witness for C9: the stored intent is for March 2025 but the callback
names April 2025; the record is written for April 2025. -/
theorem Claims.C9_witness :
    (check_payment freshDB "s1" "p1" 4 2025 (some ⟨"succeeded", "card"⟩)).1.history
      = [⟨"s1", some "p1", 4, 2025, ⟨5650, 0⟩, "oge_9", "card", "completed"⟩]
      ∧ pendingIntent.payment_month = 3 := by
  have h := Claims.C9_callback_month_wins freshDB "s1" "p1" 4 2025 studentIvan
    pendingIntent "card" (by decide) (by decide) (by decide) (by decide)
  exact ⟨by rw [h]; decide, by decide⟩

/-- C4: after a first poll committed the History Record for the month, a
second sequential poll — whatever the gateway answers this time — trips
the already-paid guard, returns the state untouched and writes no second
record; the first poll wrote exactly one record. -/
theorem Claims.C4_second_poll_writes_nothing (db : DB) (uid pid : String)
    (m y : Nat) (user : UserRec) (p : PaymentRec) (pm : String)
    (g2 : Option GatewayInfo)
    (huser : findUser db uid = some user)
    (hguard : is_month_paid db user.telegram_id m y = false)
    (hpay : findPayment db pid = some p) :
    check_payment (check_payment db uid pid m y (some ⟨"succeeded", pm⟩)).1
        uid pid m y g2
      = ((check_payment db uid pid m y (some ⟨"succeeded", pm⟩)).1,
         .alreadyPaid m y)
    ∧ (check_payment db uid pid m y (some ⟨"succeeded", pm⟩)).1.history.length
      = db.history.length + 1 := by
  have e1 : (check_payment db uid pid m y (some ⟨"succeeded", pm⟩)).1 =
      { updatePayment db { p with status := "succeeded", payment_method := pm } with
        history := db.history ++ [⟨user.telegram_id, some pid, m, y, p.amount,
          p.pricing_plan, "card", "completed"⟩] } := by
    unfold check_payment
    rw [huser]
    simp only [hguard, Bool.false_eq_true, if_false, hpay, if_true,
      historyDefaultType, historyDefaultStatus, updatePayment]
    rfl
  have hu2 : findUser ((check_payment db uid pid m y
      (some ⟨"succeeded", pm⟩)).1) uid = some user := by
    rw [e1]
    simpa [findUser, updatePayment] using huser
  have hp2 : is_month_paid ((check_payment db uid pid m y
      (some ⟨"succeeded", pm⟩)).1) user.telegram_id m y = true := by
    rw [e1]
    simp [is_month_paid, updatePayment, List.any_append]
  refine ⟨?_, ?_⟩
  · generalize hg : (check_payment db uid pid m y
      (some ⟨"succeeded", pm⟩)).1 = db1 at hu2 hp2 ⊢
    unfold check_payment
    rw [hu2]
    simp only [hp2, if_true]
  · rw [e1]
    simp [updatePayment]

/-- Witness for C4: a succeeded first poll for March 2025 on `freshDB`
followed by a second identical poll: the second answers "already paid" and
the state still holds exactly one record. -/
theorem Claims.C4_witness :
    check_payment (check_payment freshDB "s1" "p1" 3 2025
        (some ⟨"succeeded", "card"⟩)).1 "s1" "p1" 3 2025
        (some ⟨"succeeded", "card"⟩)
      = ((check_payment freshDB "s1" "p1" 3 2025 (some ⟨"succeeded", "card"⟩)).1,
         .alreadyPaid 3 2025)
    ∧ (check_payment freshDB "s1" "p1" 3 2025
        (some ⟨"succeeded", "card"⟩)).1.history.length = 1 := by
  have h := Claims.C4_second_poll_writes_nothing freshDB "s1" "p1" 3 2025
    studentIvan pendingIntent "card" (some ⟨"succeeded", "card"⟩)
    (by decide) (by decide) (by decide)
  exact ⟨h.1, by rw [h.2]; decide⟩

/-- C6: with the wait state present, a decimal text (comma or dot) with a
positive value credits the student's balance by exactly that value, clears
the wait state and writes no History Record; a non-positive or non-numeric
text changes nothing and keeps the wait state; a vanished student clears
the wait state without touching any balance.  `"1500,50"` parses to
1500.50, `"-5"` to the non-positive −5, and `"abc"` fails to parse. -/
theorem Claims.C6_free_amount_credit (db : DB) (aid text : String)
    (admin : UserRec) (st : AdminStateRec)
    (hadmin : findUser db aid = some admin)
    (hisadmin : admin.is_admin = true)
    (hstate : findAdminState db aid "waiting_balance_amount" = some st) :
    (pyDecimal (pyReplaceCommaDot text) = none →
        handle_admin_text_input db aid text = (db, .genericError))
    ∧ (∀ q, pyDecimal (pyReplaceCommaDot text) = some q →
        Dec.ble q Dec.zero = true →
        handle_admin_text_input db aid text = (db, .amountNotPositive))
    ∧ (∀ q, pyDecimal (pyReplaceCommaDot text) = some q →
        Dec.ble q Dec.zero = false →
        findUser db st.student_id = none →
        handle_admin_text_input db aid text =
          (removeAdminState db aid "waiting_balance_amount", .studentGoneCanceled)
        ∧ (removeAdminState db aid "waiting_balance_amount").users = db.users)
    ∧ (∀ q student, pyDecimal (pyReplaceCommaDot text) = some q →
        Dec.ble q Dec.zero = false →
        findUser db st.student_id = some student →
        handle_admin_text_input db aid text =
          (removeAdminState
            (updateUser db { student with balance := Dec.add student.balance q })
            aid "waiting_balance_amount",
           .balanceCredited q (Dec.add student.balance q))
        ∧ (handle_admin_text_input db aid text).1.history = db.history
        ∧ (Dec.add student.balance q).toRat = student.balance.toRat + q.toRat)
    ∧ pyDecimal (pyReplaceCommaDot "1500,50") = some ⟨150050, 2⟩
    ∧ Dec.toRat ⟨150050, 2⟩ = 1500.50
    ∧ pyDecimal (pyReplaceCommaDot "-5") = some ⟨-5, 0⟩
    ∧ Dec.ble ⟨-5, 0⟩ Dec.zero = true
    ∧ pyDecimal (pyReplaceCommaDot "abc") = none := by
  refine ⟨?_, ?_, ?_, ?_, by decide, by norm_num [Dec.toRat], by decide,
    by decide, by decide⟩
  · intro hparse
    unfold handle_admin_text_input
    rw [hadmin]
    simp only [hisadmin, Bool.not_true, Bool.false_eq_true, if_false, hstate,
      hparse]
  · intro q hparse hnp
    unfold handle_admin_text_input
    rw [hadmin]
    simp only [hisadmin, Bool.not_true, Bool.false_eq_true, if_false, hstate,
      hparse, hnp, if_true]
  · intro q hparse hpos hgone
    constructor
    · unfold handle_admin_text_input
      rw [hadmin]
      simp only [hisadmin, Bool.not_true, Bool.false_eq_true, if_false, hstate,
        hparse, hpos, hgone]
    · rfl
  · intro q student hparse hpos hstud
    have e : handle_admin_text_input db aid text =
        (removeAdminState
          (updateUser db { student with balance := Dec.add student.balance q })
          aid "waiting_balance_amount",
         .balanceCredited q (Dec.add student.balance q)) := by
      unfold handle_admin_text_input
      rw [hadmin]
      simp only [hisadmin, Bool.not_true, Bool.false_eq_true, if_false, hstate,
        hparse, hpos, hstud]
    exact ⟨e, by rw [e]; rfl, Dec.toRat_add _ _⟩

/-- Witness for C6: on `waitDB` (balance 1000, wait state for s1), the text
`"1500,50"` credits the balance to 2500.50, clears the wait state and
leaves history empty. -/
theorem Claims.C6_witness :
    handle_admin_text_input waitDB "a1" "1500,50" =
      (removeAdminState
        (updateUser waitDB { studentIvanSmall with
          balance := Dec.add studentIvanSmall.balance ⟨150050, 2⟩ })
        "a1" "waiting_balance_amount",
       .balanceCredited ⟨150050, 2⟩ (Dec.add studentIvanSmall.balance ⟨150050, 2⟩))
    ∧ balanceOf (handle_admin_text_input waitDB "a1" "1500,50").1 "s1"
      = some ⟨250050, 2⟩
    ∧ (handle_admin_text_input waitDB "a1" "1500,50").1.admin_states = [] := by
  have h := Claims.C6_free_amount_credit waitDB "a1" "1500,50" adminAnna
    waitState (by decide) (by decide) (by decide)
  have e := (h.2.2.2.1 ⟨150050, 2⟩ studentIvanSmall (by decide) (by decide)
    (by decide)).1
  exact ⟨e, by rw [balanceOf, e]; decide, by rw [e]; decide⟩

/-! ## Shared evaluation lemmas -/

theorem find?_map_update (l : List UserRec) (uid : String) (u u2 : UserRec)
    (h : l.find? (fun v => v.telegram_id == uid) = some u)
    (hid : u2.telegram_id = u.telegram_id) :
    (l.map (fun v => if v.telegram_id == u2.telegram_id then u2 else v)).find?
      (fun v => v.telegram_id == uid) = some u2 := by
  induction l with
  | nil => simp at h
  | cons a t ih =>
    have hu : (u.telegram_id == uid) = true := by
      have := List.find?_some h
      simpa using this
    rw [List.map_cons, List.find?]
    cases hb : a.telegram_id == uid with
    | true =>
      rw [List.find?] at h
      rw [hb] at h
      simp only [Option.some.injEq] at h
      subst h
      have hcond : (a.telegram_id == u2.telegram_id) = true := by
        rw [hid]
        exact beq_self_eq_true _
      rw [if_pos hcond]
      have : (u2.telegram_id == uid) = true := by rw [hid]; exact hb
      rw [this]
    | false =>
      rw [List.find?] at h
      rw [hb] at h
      cases hc : a.telegram_id == u2.telegram_id with
      | true =>
        have h2 : (u2.telegram_id == uid) = true := by rw [hid]; exact hu
        simp [h2]
      | false =>
        simp only [Bool.false_eq_true, if_false, hb]
        exact ih h

theorem findUser_updateUser (db : DB) (uid : String) (u u2 : UserRec)
    (h : findUser db uid = some u) (hid : u2.telegram_id = u.telegram_id) :
    findUser (updateUser db u2) uid = some u2 := by
  unfold findUser updateUser at *
  exact find?_map_update db.users uid u u2 h hid

/-- Evaluation of the admin cash handler past all its guards. -/
theorem admin_mark_payment_run (db : DB) (aid sid : String) (m y : Nat)
    (admin student : UserRec)
    (hadmin : findUser db aid = some admin) (hisadmin : admin.is_admin = true)
    (hs1 : (sid == "") = false) (hs2 : (sid == "student") = false)
    (hs3 : (sid == "admin") = false) (hs4 : (sid == "user") = false)
    (hstud : findUser db sid = some student) :
    handle_admin_mark_payment db aid sid m y =
      (⟨(updateUser db { student with
            balance := Dec.add student.balance (adminLessonPrice student.class_number).1 }).users,
        db.payments, db.history ++ [⟨student.telegram_id, none, m, y,
            (adminLessonPrice student.class_number).1,
            (adminLessonPrice student.class_number).2, "cash", "completed"⟩],
        db.admin_states⟩,
       .markPaymentSuccess (adminLessonPrice student.class_number).2 m y
         (adminLessonPrice student.class_number).1
         (Dec.add student.balance (adminLessonPrice student.class_number).1)) := by
  unfold handle_admin_mark_payment
  rw [hadmin]
  simp only [hisadmin, Bool.not_true, Bool.false_eq_true, if_false, hs1, hs2,
    hs3, hs4, Bool.or_self, hstud, updateUser]

/-- C1 counterexample: in `paidDB` a completed record for (s1, January
2025) exists, yet the admin cash flow for that same month is not rejected:
it answers with its success report, appends a second completed record for
(s1, 1, 2025) and credits the balance from 10000 to 15650 — so not every
payment path preserves the one-completed-record-per-month invariant. -/
theorem Claims.C1_counterexample :
    is_month_paid paidDB "s1" 1 2025 = true
    ∧ (handle_admin_mark_payment paidDB "a1" "s1" 1 2025).2
      ≠ BotReply.alreadyPaid 1 2025
    ∧ ((handle_admin_mark_payment paidDB "a1" "s1" 1 2025).1.history.filter
        (fun r => r.user_id == "s1" && r.month == 1 && r.year == 2025 &&
          r.status == "completed")).length = 2
    ∧ balanceOf (handle_admin_mark_payment paidDB "a1" "s1" 1 2025).1 "s1"
      = some ⟨15650, 0⟩
    ∧ balanceOf paidDB "s1" = some ⟨10000, 0⟩ := by decide

/-- C1 amended: once a completed record exists for (student, month, year),
the gateway poll and the balance path reject with "already paid" and
return the state untouched; the admin cash path, however, performs no
already-paid check: it appends a further completed cash record for the
same month and credits the balance. -/
theorem Claims.C1_amended_guards (db : DB) (uid pid : String) (m y : Nat)
    (user : UserRec) (g : Option GatewayInfo)
    (huser : findUser db uid = some user)
    (hpaid : is_month_paid db user.telegram_id m y = true) :
    check_payment db uid pid m y g = (db, .alreadyPaid m y)
    ∧ select_balance_payment_month db uid m y = (db, .alreadyPaid m y)
    ∧ (∀ aid admin, findUser db aid = some admin → admin.is_admin = true →
        (uid == "") = false → (uid == "student") = false →
        (uid == "admin") = false → (uid == "user") = false →
        (handle_admin_mark_payment db aid uid m y).1.history
          = db.history ++ [⟨user.telegram_id, none, m, y,
              (adminLessonPrice user.class_number).1,
              (adminLessonPrice user.class_number).2, "cash", "completed"⟩]
        ∧ balanceOf (handle_admin_mark_payment db aid uid m y).1 uid
          = some (Dec.add user.balance (adminLessonPrice user.class_number).1)
        ∧ user.balance.toRat
          < (Dec.add user.balance (adminLessonPrice user.class_number).1).toRat
        ∧ (handle_admin_mark_payment db aid uid m y).2 ≠ .alreadyPaid m y) := by
  refine ⟨?_, ?_, ?_⟩
  · unfold check_payment
    rw [huser]
    simp only [hpaid, if_true]
  · unfold select_balance_payment_month
    rw [huser]
    simp only [hpaid, if_true]
  · intro aid admin hadmin hisadmin hs1 hs2 hs3 hs4
    have e := admin_mark_payment_run db aid uid m y admin user hadmin hisadmin
      hs1 hs2 hs3 hs4 huser
    refine ⟨by rw [e], ?_, ?_, by rw [e]; simp⟩
    · rw [balanceOf, e]
      have := findUser_updateUser db uid user
        { user with balance := Dec.add user.balance (adminLessonPrice user.class_number).1 }
        huser rfl
      unfold findUser at this ⊢
      rw [this]
      rfl
    · rw [Dec.toRat_add]
      have := adminLessonPrice_pos user.class_number
      linarith
/-- Witness for the amended C1 at (s1, January 2025) on `paidDB`. -/
theorem Claims.C1_witness :
    check_payment paidDB "s1" "p1" 1 2025 none = (paidDB, .alreadyPaid 1 2025)
    ∧ select_balance_payment_month paidDB "s1" 1 2025
      = (paidDB, .alreadyPaid 1 2025)
    ∧ (handle_admin_mark_payment paidDB "a1" "s1" 1 2025).1.history
      = paidDB.history ++ [⟨"s1", none, 1, 2025, ⟨5650, 0⟩,
          "💯ОГЭ(9 класс)", "cash", "completed"⟩] := by
  have h := Claims.C1_amended_guards paidDB "s1" "p1" 1 2025 studentIvan none
    (by decide) (by decide)
  have hc := h.2.2 "a1" adminAnna (by decide) (by decide) (by decide)
    (by decide) (by decide) (by decide)
  exact ⟨h.1, h.2.1, by rw [hc.1]; decide⟩

/-- The two persistence calls of the admin cash success path, in source
order: `student.save()` then `PaymentHistory.objects.create(...)`. -/
def cashPayWrites (student2 : UserRec) (hrec : HistoryRec) : List (DB → DB) :=
  [dbSaveUser student2, dbCreateHistory hrec]

/-- C2 counterexample: the March 2025 balance payment on `freshDB` is the
two-write sequence balance-save-then-history-create; the state reached by
executing only the first write (the failure point between `user.save()`
and the `create`) still has the old history but the balance already
debited to 4350 — it equals neither the initial state nor the final one,
so a failure there leaves exactly the partial record the claim excludes. -/
theorem Claims.C2_counterexample :
    (select_balance_payment_month freshDB "s1" 3 2025).1
      = runWrites (balancePayWrites { studentIvan with balance := ⟨4350, 0⟩ }
          ⟨"s1", none, 3, 2025, ⟨5650, 0⟩, "oge_9", "balance", "completed"⟩)
          freshDB
    ∧ (runWrites ((balancePayWrites { studentIvan with balance := ⟨4350, 0⟩ }
          ⟨"s1", none, 3, 2025, ⟨5650, 0⟩, "oge_9", "balance", "completed"⟩).take 1)
          freshDB).history = freshDB.history
    ∧ runWrites ((balancePayWrites { studentIvan with balance := ⟨4350, 0⟩ }
          ⟨"s1", none, 3, 2025, ⟨5650, 0⟩, "oge_9", "balance", "completed"⟩).take 1)
          freshDB ≠ freshDB
    ∧ runWrites ((balancePayWrites { studentIvan with balance := ⟨4350, 0⟩ }
          ⟨"s1", none, 3, 2025, ⟨5650, 0⟩, "oge_9", "balance", "completed"⟩).take 1)
          freshDB ≠ (select_balance_payment_month freshDB "s1" 3 2025).1 := by
  decide

/-- C2 amended: on the balance path and on the admin cash path the balance
save and the history create are two separate sequential writes with no
enclosing transaction: each handler's success path equals running its
two-element write list, and the state after only the first write has the
balance already mutated while the history is still the old one. -/
theorem Claims.C2_amended_interrupted_write (db : DB) (uid : String)
    (m y : Nat) (user : UserRec) (pi : PriceInfo)
    (huser : findUser db uid = some user)
    (hguard : is_month_paid db user.telegram_id m y = false)
    (hprice : get_price_by_class user.course_or_class = some pi)
    (hb : Dec.blt user.balance (Dec.ofInt pi.price) = false) :
    (select_balance_payment_month db uid m y).1
      = runWrites (balancePayWrites
          { user with balance := Dec.sub user.balance (Dec.ofInt pi.price) }
          ⟨user.telegram_id, none, m, y, Dec.ofInt pi.price, pi.key,
            "balance", "completed"⟩) db
    ∧ (runWrites ((balancePayWrites
          { user with balance := Dec.sub user.balance (Dec.ofInt pi.price) }
          ⟨user.telegram_id, none, m, y, Dec.ofInt pi.price, pi.key,
            "balance", "completed"⟩).take 1) db).history = db.history
    ∧ balanceOf (runWrites ((balancePayWrites
          { user with balance := Dec.sub user.balance (Dec.ofInt pi.price) }
          ⟨user.telegram_id, none, m, y, Dec.ofInt pi.price, pi.key,
            "balance", "completed"⟩).take 1) db) uid
      = some (Dec.sub user.balance (Dec.ofInt pi.price))
    ∧ (Dec.sub user.balance (Dec.ofInt pi.price)).toRat
      < user.balance.toRat
    ∧ (∀ aid admin student, findUser db aid = some admin →
        admin.is_admin = true →
        (uid == "") = false → (uid == "student") = false →
        (uid == "admin") = false → (uid == "user") = false →
        findUser db uid = some student →
        (handle_admin_mark_payment db aid uid m y).1
          = runWrites (cashPayWrites
              { student with
                  balance := Dec.add student.balance (adminLessonPrice student.class_number).1 }
              ⟨student.telegram_id, none, m, y,
                (adminLessonPrice student.class_number).1,
                (adminLessonPrice student.class_number).2, "cash", "completed"⟩) db
        ∧ (runWrites ((cashPayWrites
              { student with
                  balance := Dec.add student.balance (adminLessonPrice student.class_number).1 }
              ⟨student.telegram_id, none, m, y,
                (adminLessonPrice student.class_number).1,
                (adminLessonPrice student.class_number).2, "cash", "completed"⟩).take 1)
            db).history = db.history) := by
  have hpos : (0 : ℚ) < (pi.price : ℚ) := by
    exact_mod_cast get_price_pos _ _ hprice
  refine ⟨?_, rfl, ?_, ?_, ?_⟩
  · unfold select_balance_payment_month
    rw [huser]
    simp only [hguard, Bool.false_eq_true, if_false, hprice, hb,
      runWrites, balancePayWrites, dbSaveUser, dbCreateHistory, List.foldl]
  · have := findUser_updateUser db uid user
      { user with balance := Dec.sub user.balance (Dec.ofInt pi.price) }
      huser rfl
    simp only [runWrites, balancePayWrites, List.take, List.foldl, dbSaveUser,
      balanceOf]
    rw [this]
    rfl
  · rw [Dec.toRat_sub, Dec.toRat_ofInt]
    linarith
  · intro aid admin student hadmin hisadmin hs1 hs2 hs3 hs4 hstud
    have e := admin_mark_payment_run db aid uid m y admin student hadmin
      hisadmin hs1 hs2 hs3 hs4 hstud
    refine ⟨?_, rfl⟩
    rw [e]
    simp only [runWrites, cashPayWrites, dbSaveUser, dbCreateHistory,
      List.foldl, updateUser]

/-- Witness for the amended C2 on `freshDB`, March 2025, balance 10000 and
price 5650. -/
theorem Claims.C2_witness :
    (select_balance_payment_month freshDB "s1" 3 2025).1
      = runWrites (balancePayWrites
          { studentIvan with balance := Dec.sub studentIvan.balance (Dec.ofInt 5650) }
          ⟨"s1", none, 3, 2025, Dec.ofInt 5650, "oge_9", "balance", "completed"⟩)
          freshDB
    ∧ balanceOf (runWrites ((balancePayWrites
          { studentIvan with balance := Dec.sub studentIvan.balance (Dec.ofInt 5650) }
          ⟨"s1", none, 3, 2025, Dec.ofInt 5650, "oge_9", "balance",
            "completed"⟩).take 1) freshDB) "s1"
      = some (Dec.sub studentIvan.balance (Dec.ofInt 5650)) := by
  have h := Claims.C2_amended_interrupted_write freshDB "s1" 3 2025 studentIvan
    ⟨"oge_9", "💯ОГЭ(9 класс)", 5650, "2 часа / 1 раз в неделю"⟩
    (by decide) (by decide) (by decide) (by decide)
  exact ⟨h.1, h.2.2.1⟩
